import Mathlib

/-!
Verification of the microservices repository: API gateway (service proxy,
JWT middleware, prefix routes), auth service (AuthService over a Keycloak
client), and products service (controller / service / repository over a
relational table).  Each definition is a shallow embedding of the
corresponding TypeScript function; external effects (axios calls, the
database, jwt.verify) are passed in as explicit outcome values.
-/

/-! ### JavaScript string primitives used by the sources -/

/-- Model of JavaScript `String.prototype.trim()`: drop leading and trailing
whitespace characters. -/
def jsTrim (s : String) : String :=
  ⟨((s.toList.dropWhile Char.isWhitespace).reverse.dropWhile Char.isWhitespace).reverse⟩

/-- Model of JavaScript `String.prototype.split(sep)` for a single-character
separator, on character lists.  `split` always yields at least one (possibly
empty) chunk. -/
def splitChars (sep : Char) : List Char → List (List Char)
  | [] => [[]]
  | c :: rest =>
    match splitChars sep rest with
    | [] => [[]]
    | w :: ws => if c = sep then [] :: w :: ws else (c :: w) :: ws

/-- Model of JavaScript `String.prototype.includes(sub)`. -/
def jsIncludes (s sub : String) : Bool :=
  s.toList.tails.any (fun t => sub.toList.isPrefixOf t)

/-- Digit-prefix accumulator for `jsParseInt`; returns `none` when no digit
was consumed. -/
def parseDigits : List Char → Option Nat → Option Nat
  | [], acc => acc
  | c :: rest, acc =>
    if c.isDigit then parseDigits rest (some ((acc.getD 0) * 10 + (c.toNat - '0'.toNat)))
    else acc

/-- Model of JavaScript `parseInt(s, 10)`: skip leading whitespace, optional
sign, then the longest digit prefix; `none` models `NaN`. -/
def jsParseInt (s : String) : Option Int :=
  match s.toList.dropWhile Char.isWhitespace with
  | '-' :: rest => (parseDigits rest none).map (fun n => -(n : Int))
  | '+' :: rest => (parseDigits rest none).map (fun n => (n : Int))
  | cs => (parseDigits cs none).map (fun n => (n : Int))

/-- Model of JavaScript `String.prototype.replace(pat, rep)` with a string
pattern: replaces only the first occurrence. -/
def replaceFirst (s pat rep : String) : String :=
  match s.splitOn pat with
  | before :: nxt :: rest => before ++ rep ++ String.intercalate pat (nxt :: rest)
  | _ => s

/-! ### Auth service: Keycloak client (keycloak.service.ts) -/

/-- Body of a Keycloak error response (`error.response.data`). -/
structure KcErrorResponse where
  status : Nat
  error : Option String
  error_description : Option String
deriving DecidableEq

/-- Successful token-endpoint body (`response.data`). -/
structure TokenResponse where
  access_token : Option String
  refresh_token : Option String
  token_type : Option String
  expires_in : Option Nat
  refresh_expires_in : Option Nat
deriving DecidableEq

/-- The `LoginResponse` shape returned by the Keycloak client and AuthService. -/
structure LoginResponse where
  success : Bool
  accessToken : Option String
  refreshToken : Option String
  tokenType : Option String
  expiresIn : Option Nat
  refreshExpiresIn : Option Nat
  error : Option String
  message : Option String
deriving DecidableEq

/-- A failure `LoginResponse` carrying only `error` and `message`. -/
def LoginResponse.mkFailure (error message : String) : LoginResponse :=
  ⟨false, none, none, none, none, none, some error, some message⟩

/-- Outcome of the axios POST to the Keycloak token endpoint: either the
promise resolved (2xx) with a body, or it rejected with an optional error
code and an optional HTTP error response. -/
inductive TokenEndpointOutcome where
  | resolved (status : Nat) (body : TokenResponse)
  | rejected (code : Option String) (response : Option KcErrorResponse)
deriving DecidableEq

/-- Embedding of `KeycloakClient.handleAuthenticationError`. -/
def KeycloakClient.handleAuthenticationError (code : Option String)
    (response : Option KcErrorResponse) : LoginResponse :=
  if code = some "ECONNREFUSED" ∨ code = some "ENOTFOUND" then
    .mkFailure "Keycloak server is not available"
      "Authentication service is currently unavailable. Please try again later."
  else if code = some "ETIMEDOUT" then
    .mkFailure "Request timeout" "Authentication request timed out. Please try again."
  else
    match response with
    | some errorData =>
      if errorData.status = 400 then
        if errorData.error = some "invalid_grant" then
          .mkFailure "Invalid credentials" "Username or password is incorrect"
        else
          .mkFailure "Bad request" (errorData.error_description.getD "Invalid request parameters")
      else if errorData.status = 401 then
        .mkFailure "Unauthorized" "Invalid credentials or client configuration"
      else if errorData.status = 403 then
        .mkFailure "Forbidden" "Access denied"
      else if errorData.status = 500 then
        .mkFailure "Server error" "Keycloak server error. Please try again later."
      else
        .mkFailure "Authentication failed"
          ("Unexpected error occurred (" ++ toString errorData.status ++ ")")
    | none => .mkFailure "Network error" "Failed to connect to authentication server"

/-- Embedding of `KeycloakClient.authenticate`, as a function of the token
endpoint's outcome.  A resolved response that is not a 200-with-access-token
throws, and the catch block routes the thrown plain `Error` (no code, no
response) through `handleAuthenticationError`. -/
def KeycloakClient.authenticate (outcome : TokenEndpointOutcome) : LoginResponse :=
  match outcome with
  | .resolved status body =>
    if status = 200 ∧ body.access_token.isSome then
      ⟨true, body.access_token, body.refresh_token, body.token_type,
        body.expires_in, body.refresh_expires_in, none, some "Authentication successful"⟩
    else
      KeycloakClient.handleAuthenticationError none none
  | .rejected code response => KeycloakClient.handleAuthenticationError code response

/-- Embedding of `KeycloakClient.refreshToken`, as a function of the token
endpoint's outcome. -/
def KeycloakClient.refreshToken (outcome : TokenEndpointOutcome) : LoginResponse :=
  match outcome with
  | .resolved status body =>
    if status = 200 ∧ body.access_token.isSome then
      ⟨true, body.access_token, body.refresh_token, body.token_type,
        body.expires_in, body.refresh_expires_in, none, some "Token refreshed successfully"⟩
    else
      KeycloakClient.handleAuthenticationError none none
  | .rejected code response => KeycloakClient.handleAuthenticationError code response

/-! ### Auth service: AuthService (auth.service.ts) -/

/-- One step of an AuthService operation: either it settles locally with a
result (the downstream Keycloak client is never invoked), or it forwards
a call carrying exactly the arguments sent downstream. -/
inductive AuthStep (α β : Type) where
  | localResult (result : α)
  | forward (call : β)
deriving DecidableEq

/-- Embedding of `AuthService.authenticate`: the guards run in source order
(`!username || !password`, then `trim().length === 0` checks), and on
success the client receives `username.trim()` and the raw `password`. -/
def AuthService.authenticate (username password : String) :
    AuthStep LoginResponse (String × String) :=
  if username = "" ∨ password = "" then
    .localResult (.mkFailure "Missing credentials" "Username and password are required")
  else if (jsTrim username).length = 0 ∨ (jsTrim password).length = 0 then
    .localResult (.mkFailure "Invalid credentials" "Username and password cannot be empty")
  else
    .forward (jsTrim username, password)

/-- Embedding of `AuthService.refreshToken`. -/
def AuthService.refreshToken (refreshToken : String) : AuthStep LoginResponse String :=
  if refreshToken = "" ∨ (jsTrim refreshToken).length = 0 then
    .localResult (.mkFailure "Missing refresh token" "Refresh token is required")
  else
    .forward (jsTrim refreshToken)

/-- Embedding of `AuthService.validateToken`; the local result is the thrown
error message. -/
def AuthService.validateToken (token : String) : AuthStep String String :=
  if token = "" ∨ (jsTrim token).length = 0 then
    .localResult "Token is required"
  else
    .forward (jsTrim token)

/-- Embedding of `AuthService.logout`; the local result is the returned
boolean. -/
def AuthService.logout (refreshToken : String) : AuthStep Bool String :=
  if refreshToken = "" ∨ (jsTrim refreshToken).length = 0 then
    .localResult false
  else
    .forward (jsTrim refreshToken)

/-- An AuthService step that settles locally with an unsuccessful
`LoginResponse` (so the downstream client is never invoked). -/
def authLocalFailure {β : Type} : AuthStep LoginResponse β → Prop
  | .localResult r => r.success = false
  | .forward _ => False

/-! ### Products service: repository, service, controller -/

/-- A row of the `products` table (product.types.ts). -/
structure Product where
  product_id : Int
  product_name : String
  supplier_id : Option Int
  category_id : Option Int
  quantity_per_unit : Option String
  unit_price : Option ℚ
  units_in_stock : Option Int
  units_on_order : Option Int
  reorder_level : Option Int
  discontinued : Int
deriving DecidableEq

/-- The embedded relational state: the `products` table together with the
next value of the serial `product_id` column. -/
structure ProductsDb where
  rows : List Product
  nextId : Int
deriving DecidableEq

/-- Embedding of `ProductRepository.getProductById`:
`SELECT ... WHERE product_id = $1`, then `rows[0]` if any row matched. -/
def ProductRepository.getProductById (db : ProductsDb) (productId : Int) : Option Product :=
  (db.rows.filter (fun r => r.product_id == productId)).head?

/-- Embedding of `ProductRepository.createProduct`:
`INSERT INTO products (...) VALUES (...) RETURNING *` — the server assigns
the serial id, the row is appended, and the stored row is returned. -/
def ProductRepository.createProduct (db : ProductsDb) (product : Product) :
    Product × ProductsDb :=
  let newRow : Product := { product with product_id := db.nextId }
  (newRow, ⟨db.rows ++ [newRow], db.nextId + 1⟩)

/-- The `ApiResponse` envelope of the products service. -/
structure ApiResponse (α : Type) where
  success : Bool
  data : Option α
  error : Option String
  message : Option String
deriving DecidableEq

/-- Embedding of `ProductService.getProductById`.  The boolean of the pair
records whether the repository was queried. -/
def ProductService.getProductById (db : ProductsDb) (productId : Int) :
    ApiResponse Product × Bool :=
  if productId ≤ 0 then
    (⟨false, none, some "Invalid product ID provided", none⟩, false)
  else
    match ProductRepository.getProductById db productId with
    | none =>
      (⟨false, none, some ("Product with ID " ++ toString productId ++ " not found"), none⟩, true)
    | some product =>
      (⟨true, some product, none, some "Product retrieved successfully"⟩, true)

/-- Embedding of `ProductController.getProductById`: `parseInt(req.params.id, 10)`,
400 on `NaN`, otherwise the service result with 200 on success, 404 when the
error message contains `not found`, and 400 otherwise. -/
def ProductController.getProductById (db : ProductsDb) (idSegment : String) :
    Nat × ApiResponse Product :=
  match jsParseInt idSegment with
  | none => (400, ⟨false, none, some "Invalid product ID format", none⟩)
  | some productId =>
    let result := (ProductService.getProductById db productId).1
    if result.success then (200, result)
    else (if jsIncludes (result.error.getD "") "not found" then 404 else 400, result)

/-! ### API gateway: service proxy (service-proxy.ts) -/

/-- `ServiceConfig` of the gateway's service map. -/
structure ServiceConfig where
  name : String
  baseUrl : String
  timeout : Option Nat
  retries : Option Nat
deriving DecidableEq

/-- Embedding of `ServiceProxy.initializeServices`: the service map holds
exactly `products`, `suppliers` and `users`, with URLs from the environment
or defaults. -/
def ServiceProxy.initializeServices (env : String → Option String) :
    List (String × ServiceConfig) :=
  [("products", ⟨"products", (env "PRODUCTS_SERVICE_URL").getD "http://localhost:3002", some 5000, some 3⟩),
   ("suppliers", ⟨"suppliers", (env "SUPPLIERS_SERVICE_URL").getD "http://localhost:3003", some 5000, some 3⟩),
   ("users", ⟨"users", (env "USERS_SERVICE_URL").getD "http://localhost:3004", some 5000, some 3⟩)]

/-- Embedding of `ServiceProxy.sanitizeHeaders`: a copy of the inbound
headers with `host`, `connection`, `content-length` and `transfer-encoding`
deleted. -/
def ServiceProxy.sanitizeHeaders (headers : List (String × String)) :
    List (String × String) :=
  headers.filter (fun p =>
    !(p.1 == "host" || p.1 == "connection" || p.1 == "content-length" || p.1 == "transfer-encoding"))

/-- Embedding of `ServiceProxy.sanitizeResponseHeaders`: a copy of the
downstream response headers with `transfer-encoding` and `connection`
deleted. -/
def ServiceProxy.sanitizeResponseHeaders (headers : List (String × String)) :
    List (String × String) :=
  headers.filter (fun p => !(p.1 == "transfer-encoding" || p.1 == "connection"))

/-- The inbound request as the proxy sees it; `β` is the body type. -/
structure GatewayRequest (β : Type) where
  method : String
  path : String
  body : β
  query : List (String × String)
  headers : List (String × String)
deriving DecidableEq

/-- The axios request actually issued downstream by `forwardRequest`. -/
structure ForwardedRequest (β : Type) where
  method : String
  url : String
  data : β
  params : List (String × String)
  headers : List (String × String)
  timeout : Option Nat
deriving DecidableEq

/-- Outcome of the axios call made by `forwardRequest`.  Because
`validateStatus: () => true`, every HTTP response (any status) resolves;
`failure` covers rejections, carrying `error.code` and `error.response`. -/
inductive AxiosOutcome (γ : Type) where
  | response (status : Nat) (data : γ) (headers : List (String × String))
  | failure (code : Option String) (errResponse : Option (Nat × γ))
deriving DecidableEq

/-- A response body produced by the gateway: either its own JSON envelope or
the downstream body relayed as-is. -/
inductive GatewayBody (γ : Type) where
  | envelope (success : Bool) (error : String) (code : Option String) (hint : Option String)
  | relayed (data : γ)
deriving DecidableEq

/-- The response the gateway sends to the client. -/
structure GatewayResponse (γ : Type) where
  status : Nat
  headers : List (String × String)
  body : GatewayBody γ
deriving DecidableEq

/-- Embedding of `ServiceProxy.handleProxyError`. -/
def ServiceProxy.handleProxyError {γ : Type} (code : Option String)
    (errResponse : Option (Nat × γ)) (serviceName : String) : GatewayResponse γ :=
  if code = some "ECONNREFUSED" ∨ code = some "ENOTFOUND" ∨ code = some "ETIMEDOUT" then
    ⟨502, [], .envelope false ("Service \x27" ++ serviceName ++ "\x27 is currently unavailable")
      (some "SERVICE_UNAVAILABLE") none⟩
  else
    match errResponse with
    | some (status, data) => ⟨status, [], .relayed data⟩
    | none => ⟨500, [], .envelope false "Internal gateway error" (some "GATEWAY_ERROR") none⟩

/-- Embedding of `ServiceProxy.forwardRequest`.  The first component is the
request sent downstream (`none` when nothing was forwarded). -/
def ServiceProxy.forwardRequest {β γ : Type} (env : String → Option String)
    (serviceName : String) (req : GatewayRequest β) (path : Option String)
    (outcome : AxiosOutcome γ) : Option (ForwardedRequest β) × GatewayResponse γ :=
  match (ServiceProxy.initializeServices env).lookup serviceName with
  | none =>
    (none, ⟨404, [], .envelope false ("Service \x27" ++ serviceName ++ "\x27 not found") none none⟩)
  | some service =>
    let targetPath := path.getD req.path
    let sent : ForwardedRequest β :=
      ⟨req.method, service.baseUrl ++ targetPath, req.body, req.query,
        ServiceProxy.sanitizeHeaders req.headers, service.timeout⟩
    match outcome with
    | .response status data respHeaders =>
      (some sent, ⟨status, ServiceProxy.sanitizeResponseHeaders respHeaders, .relayed data⟩)
    | .failure code errResponse =>
      (some sent, ServiceProxy.handleProxyError code errResponse serviceName)

/-! ### API gateway: authentication middleware and routes -/

/-- Outcome of `jwt.verify` on a token (RS256 signature, audience and issuer
checks performed by the jsonwebtoken library). -/
inductive VerifyOutcome where
  | ok (claims : List (String × String))
  | err (message : String)
deriving DecidableEq

/-- Result of the middleware: a direct response, or `next()` with the decoded
user attached. -/
inductive AuthResult where
  | respond (status : Nat) (error : String) (hint : String)
  | proceed (user : List (String × String))
deriving DecidableEq

/-- Embedding of `authHeader.split(' ')[1]` (the `undefined` of a missing
index is modelled as the empty string, which is equally falsy). -/
def AuthenticationMiddleware.extractToken (authHeader : String) : String :=
  ⟨(splitChars ' ' authHeader.toList).getD 1 []⟩

/-- Error message selection of the middleware's verification-failure branch. -/
def AuthenticationMiddleware.verifyErrorMessage (m : String) : String :=
  if jsIncludes m "Not Found" then "Keycloak server or realm not found"
  else if jsIncludes m "audience" then "Token audience mismatch"
  else if jsIncludes m "issuer" then "Token issuer mismatch"
  else "Invalid or expired token"

/-- Hint selection of the middleware's verification-failure branch. -/
def AuthenticationMiddleware.verifyErrorHint (m : String) : String :=
  if jsIncludes m "Not Found" then "Please check Keycloak server configuration"
  else if jsIncludes m "audience" then "Token was issued for a different client"
  else if jsIncludes m "issuer" then "Token was issued by a different server"
  else "Please login again to get a new token"

/-- Embedding of `AuthenticationMiddleware.authenticate`, as a function of
the `authorization` header and of the `jwt.verify` oracle. -/
def AuthenticationMiddleware.authenticate (authHeader : Option String)
    (verify : String → VerifyOutcome) : AuthResult :=
  match authHeader with
  | none =>
    .respond 401 "No authorization header provided" "Include Authorization: Bearer <token> header"
  | some h =>
    if h = "" then
      .respond 401 "No authorization header provided" "Include Authorization: Bearer <token> header"
    else
      let token := AuthenticationMiddleware.extractToken h
      if token = "" then
        .respond 401 "No token provided" "Authorization header format: Bearer <token>"
      else
        match verify token with
        | .err m =>
          .respond 401 (AuthenticationMiddleware.verifyErrorMessage m)
            (AuthenticationMiddleware.verifyErrorHint m)
        | .ok claims => .proceed claims

/-- Embedding of the `/auth*` route of api.routes.ts: the path is rewritten
by `replace('/auth', '/auth')` and the request is forwarded to the service
named `auth` without any token verification. -/
def gatewayAuthRoute {β γ : Type} (env : String → Option String)
    (req : GatewayRequest β) (outcome : AxiosOutcome γ) :
    Option (ForwardedRequest β) × GatewayResponse γ :=
  ServiceProxy.forwardRequest env "auth" req (some (replaceFirst req.path "/auth" "/auth")) outcome

/-- Embedding of the `/products*` route in the api.routes.ts variant that
mounts `authMiddleware.authenticate` before forwarding: a middleware response
short-circuits the route (nothing is forwarded), otherwise the request is
forwarded to `products` with `replace('/products', '/api/v1/products')`. -/
def gatewayProductsRoute {β γ : Type} (env : String → Option String)
    (req : GatewayRequest β) (verify : String → VerifyOutcome)
    (outcome : AxiosOutcome γ) : Option (ForwardedRequest β) × GatewayResponse γ :=
  match AuthenticationMiddleware.authenticate (req.headers.lookup "authorization") verify with
  | .respond status error hint => (none, ⟨status, [], .envelope false error none (some hint)⟩)
  | .proceed _ =>
    ServiceProxy.forwardRequest env "products" req
      (some (replaceFirst req.path "/products" "/api/v1/products")) outcome

/-! ### Helper lemmas -/

/-- A string has length zero exactly when it is empty. -/
theorem string_length_eq_zero (s : String) : s.length = 0 ↔ s = "" := by
  constructor
  · intro h
    cases s with
    | mk data =>
      cases data with
      | nil => rfl
      | cons c cs => simp [String.length] at h
  · intro h
    subst h
    rfl

/-- Character list of a string concatenation. -/
theorem string_toList_append (a b : String) : (a ++ b).toList = a.toList ++ b.toList :=
  String.data_append a b

/-- Association-list lookup after filtering on a key predicate. -/
theorem lookup_filter_key (l : List (String × String)) (p : String → Bool) (k : String) :
    (l.filter (fun x => p x.1)).lookup k = if p k then l.lookup k else none := by
  induction l with
  | nil => simp [List.filter]
  | cons a t ih =>
    rcases a with ⟨ka, va⟩
    by_cases hk : k = ka
    · subst hk
      by_cases hpa : p k
      · simp [List.filter_cons, hpa, List.lookup_cons]
      · simp [List.filter_cons, hpa, List.lookup_cons, ih]
    · have hbeq : (k == ka) = false := beq_eq_false_iff_ne.mpr hk
      by_cases hpa : p ka
      · simp [List.filter_cons, hpa, List.lookup_cons, hbeq, ih]
      · simp [List.filter_cons, hpa, List.lookup_cons, hbeq, ih]

/-- Containment test `jsIncludes` holds for any suffix. -/
theorem jsIncludes_of_suffix (s sub : String) (h : sub.toList <:+ s.toList) :
    jsIncludes s sub = true := by
  unfold jsIncludes
  rw [List.any_eq_true]
  exact ⟨sub.toList, (List.mem_tails _ _).2 h,
    List.isPrefixOf_iff_prefix.2 (List.prefix_refl _)⟩

/-- Splitting always returns at least one chunk. -/
theorem splitChars_ne_nil (sep : Char) (l : List Char) : splitChars sep l ≠ [] := by
  cases l with
  | nil => simp [splitChars]
  | cons c rest =>
    unfold splitChars
    cases h : splitChars sep rest with
    | nil => simp
    | cons w ws => by_cases hc : c = sep <;> simp [hc]

/-- Splitting a separator-free list yields that single chunk. -/
theorem splitChars_not_mem (sep : Char) (l : List Char) (h : sep ∉ l) :
    splitChars sep l = [l] := by
  induction l with
  | nil => rfl
  | cons c rest ih =>
    have hc : c ≠ sep := by
      rintro rfl
      exact h (List.mem_cons_self _ _)
    have hrest : sep ∉ rest := fun hm => h (List.mem_cons_of_mem _ hm)
    unfold splitChars
    rw [ih hrest]
    simp [hc]

/-- Splitting `s ++ sep :: t` with `sep` not in `s` peels off `s` as the first chunk. -/
theorem splitChars_append_sep (sep : Char) (s t : List Char) (hs : sep ∉ s) :
    splitChars sep (s ++ sep :: t) = s :: splitChars sep t := by
  induction s with
  | nil =>
    simp only [List.nil_append]
    cases h : splitChars sep t with
    | nil => exact absurd h (splitChars_ne_nil sep t)
    | cons w ws =>
      rw [splitChars, h]
      simp
  | cons c rest ih =>
    have hc : c ≠ sep := by
      rintro rfl
      exact hs (List.mem_cons_self _ _)
    have hrest : sep ∉ rest := fun hm => hs (List.mem_cons_of_mem _ hm)
    simp only [List.cons_append]
    rw [splitChars, ih hrest]
    simp [hc]

/-- Token extraction on a two-word header returns the second word, whatever the first word is, when neither word contains a space. -/
theorem extractToken_scheme_space_token (scheme tok : String)
    (hs : ¬ ' ' ∈ scheme.toList) (ht : ¬ ' ' ∈ tok.toList) :
    AuthenticationMiddleware.extractToken (scheme ++ " " ++ tok) = tok := by
  unfold AuthenticationMiddleware.extractToken
  have hdata : (scheme ++ " " ++ tok).toList = scheme.toList ++ ' ' :: tok.toList := by
    rw [string_toList_append, string_toList_append]
    simp
  rw [hdata, splitChars_append_sep _ _ _ hs, splitChars_not_mem _ _ ht]
  rfl

/-! ### Claim theorems -/

/-- Claim C1: on the `/api/products*` route (variant mounting `authMiddleware.authenticate`),
a missing authorization header, a header with no token after the scheme word, and a token
failing JWT verification each produce a 401 response with nothing forwarded to the products
service; a request whose token verifies is forwarded, with the `/products` prefix of the
path rewritten to `/api/v1/products`. -/
theorem gateway_products_route_requires_valid_token {β γ : Type} (env : String → Option String)
    (req : GatewayRequest β) (verify : String → VerifyOutcome) (outcome : AxiosOutcome γ) :
    ((req.headers.lookup "authorization" = none ∨ req.headers.lookup "authorization" = some "" →
      (gatewayProductsRoute env req verify outcome).1 = none ∧
      (gatewayProductsRoute env req verify outcome).2.status = 401)) ∧
    (∀ h, req.headers.lookup "authorization" = some h → h ≠ "" →
      AuthenticationMiddleware.extractToken h = "" →
      (gatewayProductsRoute env req verify outcome).1 = none ∧
      (gatewayProductsRoute env req verify outcome).2.status = 401 ∧
      (gatewayProductsRoute env req verify outcome).2.body =
        .envelope false "No token provided" none
          (some "Authorization header format: Bearer <token>")) ∧
    (∀ h m, req.headers.lookup "authorization" = some h → h ≠ "" →
      AuthenticationMiddleware.extractToken h ≠ "" →
      verify (AuthenticationMiddleware.extractToken h) = .err m →
      (gatewayProductsRoute env req verify outcome).1 = none ∧
      (gatewayProductsRoute env req verify outcome).2.status = 401) ∧
    (∀ h claims, req.headers.lookup "authorization" = some h → h ≠ "" →
      verify (AuthenticationMiddleware.extractToken h) = .ok claims →
      AuthenticationMiddleware.extractToken h ≠ "" →
      gatewayProductsRoute env req verify outcome =
        ServiceProxy.forwardRequest env "products" req
          (some (replaceFirst req.path "/products" "/api/v1/products")) outcome ∧
      (gatewayProductsRoute env req verify outcome).1.isSome = true) := by
  refine ⟨?_, ?_, ?_, ?_⟩
  · rintro (h | h) <;>
      simp [gatewayProductsRoute, AuthenticationMiddleware.authenticate, h]
  · intro h hlook hne hext
    simp [gatewayProductsRoute, AuthenticationMiddleware.authenticate, hlook, hne, hext]
  · intro h m hlook hne hext hver
    simp [gatewayProductsRoute, AuthenticationMiddleware.authenticate, hlook, hne, hext, hver]
  · intro h claims hlook hne hver hext
    have hroute : gatewayProductsRoute env req verify outcome =
        ServiceProxy.forwardRequest env "products" req
          (some (replaceFirst req.path "/products" "/api/v1/products")) outcome := by
      simp [gatewayProductsRoute, AuthenticationMiddleware.authenticate, hlook, hne, hext, hver]
    refine ⟨hroute, ?_⟩
    rw [hroute]
    cases outcome <;> rfl

/-- Witness for C1: a concrete request whose token fails verification gets 401 and is not forwarded. -/
theorem gateway_products_route_requires_valid_token_witness :
    (gatewayProductsRoute (fun _ => none)
        (⟨"GET", "/products", (), [], [("authorization", "Bearer tok")]⟩ : GatewayRequest Unit)
        (fun _ => .err "invalid signature") (AxiosOutcome.failure (γ := Unit) none none)).1 =
      none ∧
    (gatewayProductsRoute (fun _ => none)
        (⟨"GET", "/products", (), [], [("authorization", "Bearer tok")]⟩ : GatewayRequest Unit)
        (fun _ => .err "invalid signature") (AxiosOutcome.failure (γ := Unit) none none)).2.status =
      401 :=
  (gateway_products_route_requires_valid_token (fun _ => none)
      ⟨"GET", "/products", (), [], [("authorization", "Bearer tok")]⟩
      (fun _ => .err "invalid signature") (AxiosOutcome.failure none none)).2.2.1
    "Bearer tok" "invalid signature" rfl (by decide) (by decide) rfl

/-- Claim C2 (refuted by the code): the `/api/auth/*` route calls
`forwardRequest(\x27auth\x27, ...)`, but `initializeServices` registers only `products`,
`suppliers` and `users`, so for every environment, request and downstream outcome the
gateway responds 404 `Service \x27auth\x27 not found` and never forwards anything. -/
theorem gateway_auth_route_never_forwards {β γ : Type} (env : String → Option String)
    (req : GatewayRequest β) (outcome : AxiosOutcome γ) :
    gatewayAuthRoute env req outcome =
      (none, ⟨404, [], .envelope false "Service \x27auth\x27 not found" none none⟩) := by
  rfl

/-- Claim C3: failed `authenticate` and `refreshToken` calls are classified by
`handleAuthenticationError`: ECONNREFUSED/ENOTFOUND yield "Keycloak server is not available"
and ETIMEDOUT yields "Request timeout" regardless of any HTTP response; otherwise a 400 with
body error `invalid_grant` yields "Invalid credentials", any other 400 yields "Bad request",
401 "Unauthorized", 403 "Forbidden", 500 "Server error", and any other response status the
generic "Authentication failed". -/
theorem keycloak_failure_classification (code : Option String) (response : Option KcErrorResponse) :
    (KeycloakClient.authenticate (.rejected code response) =
        KeycloakClient.handleAuthenticationError code response ∧
      KeycloakClient.refreshToken (.rejected code response) =
        KeycloakClient.handleAuthenticationError code response) ∧
    ((code = some "ECONNREFUSED" ∨ code = some "ENOTFOUND") →
      (KeycloakClient.handleAuthenticationError code response).error =
        some "Keycloak server is not available") ∧
    (code = some "ETIMEDOUT" →
      (KeycloakClient.handleAuthenticationError code response).error = some "Request timeout") ∧
    (code ≠ some "ECONNREFUSED" → code ≠ some "ENOTFOUND" → code ≠ some "ETIMEDOUT" →
      ∀ er, response = some er →
        ((er.status = 400 → er.error = some "invalid_grant" →
            (KeycloakClient.handleAuthenticationError code response).error =
              some "Invalid credentials") ∧
          (er.status = 400 → er.error ≠ some "invalid_grant" →
            (KeycloakClient.handleAuthenticationError code response).error = some "Bad request") ∧
          (er.status = 401 →
            (KeycloakClient.handleAuthenticationError code response).error = some "Unauthorized") ∧
          (er.status = 403 →
            (KeycloakClient.handleAuthenticationError code response).error = some "Forbidden") ∧
          (er.status = 500 →
            (KeycloakClient.handleAuthenticationError code response).error = some "Server error") ∧
          (er.status ≠ 400 → er.status ≠ 401 → er.status ≠ 403 → er.status ≠ 500 →
            (KeycloakClient.handleAuthenticationError code response).error =
              some "Authentication failed"))) := by
  refine ⟨⟨rfl, rfl⟩, ?_, ?_, ?_⟩
  · intro h
    unfold KeycloakClient.handleAuthenticationError
    rw [if_pos h]
    rfl
  · intro h
    subst h
    unfold KeycloakClient.handleAuthenticationError
    rw [if_neg (by simp), if_pos rfl]
    rfl
  · intro h1 h2 h3 er her
    subst her
    unfold KeycloakClient.handleAuthenticationError
    rw [if_neg (by rintro (h | h) <;> simp_all), if_neg h3]
    refine ⟨?_, ?_, ?_, ?_, ?_, ?_⟩
    · intro hst hig
      simp [hst, hig, LoginResponse.mkFailure]
    · intro hst hig
      simp [hst, hig, LoginResponse.mkFailure]
    · intro hst
      simp [hst, LoginResponse.mkFailure]
    · intro hst
      simp [hst, LoginResponse.mkFailure]
    · intro hst
      simp [hst, LoginResponse.mkFailure]
    · intro h4 h5 h6 h7
      simp [h4, h5, h6, h7, LoginResponse.mkFailure]

/-- Witness for C3: a connection-refused failure is classified as server-not-available. -/
theorem keycloak_failure_classification_witness :
    (KeycloakClient.handleAuthenticationError (some "ECONNREFUSED") none).error =
      some "Keycloak server is not available" :=
  (keycloak_failure_classification (some "ECONNREFUSED") none).2.1 (Or.inl rfl)

/-- Claim C4: for every empty or whitespace-only username, password or refreshToken,
`AuthService.authenticate`, `refreshToken`, `logout` and `validateToken` settle locally
with a failure (`false` for logout, the thrown "Token is required" for validateToken) and
the downstream Keycloak client is never invoked. -/
theorem auth_service_rejects_blank_inputs_locally (u p t : String) :
    (jsTrim u = "" ∨ jsTrim p = "" → authLocalFailure (AuthService.authenticate u p)) ∧
    (jsTrim t = "" →
      authLocalFailure (AuthService.refreshToken t) ∧
      AuthService.logout t = .localResult false ∧
      AuthService.validateToken t = .localResult "Token is required") := by
  constructor
  · intro hblank
    unfold AuthService.authenticate
    by_cases h1 : u = "" ∨ p = ""
    · rw [if_pos h1]
      simp [authLocalFailure, LoginResponse.mkFailure]
    · have h2 : (jsTrim u).length = 0 ∨ (jsTrim p).length = 0 := by
        rcases hblank with h | h
        · exact Or.inl ((string_length_eq_zero _).2 h)
        · exact Or.inr ((string_length_eq_zero _).2 h)
      rw [if_neg h1, if_pos h2]
      simp [authLocalFailure, LoginResponse.mkFailure]
  · intro hblank
    have hlen : (jsTrim t).length = 0 := (string_length_eq_zero _).2 hblank
    refine ⟨?_, ?_, ?_⟩
    · unfold AuthService.refreshToken
      rw [if_pos (Or.inr hlen)]
      simp [authLocalFailure, LoginResponse.mkFailure]
    · unfold AuthService.logout
      rw [if_pos (Or.inr hlen)]
    · unfold AuthService.validateToken
      rw [if_pos (Or.inr hlen)]

/-- Witness for C4: empty username and whitespace-only refresh token are rejected locally. -/
theorem auth_service_rejects_blank_inputs_locally_witness :
    authLocalFailure (AuthService.authenticate "" "x") ∧
    AuthService.logout "   " = .localResult false :=
  ⟨(auth_service_rejects_blank_inputs_locally "" "x" "   ").1 (Or.inl rfl),
    ((auth_service_rejects_blank_inputs_locally "" "x" "   ").2 (by decide)).2.1⟩

/-- Counterexample to claim C5 as stated: with username "user" and password " pass ",
`AuthService.authenticate` forwards the raw password " pass " to the Keycloak client,
not the trimmed "pass". -/
theorem auth_service_password_trim_counterexample :
    AuthService.authenticate "user" " pass " = .forward ("user", " pass ") ∧
    jsTrim " pass " = "pass" ∧ (" pass " : String) ≠ "pass" := by
  decide

/-- Claim C5 (amended): for inputs passing local validation, `authenticate` sends the
trimmed username but the password unchanged, while `refreshToken`, `logout` and
`validateToken` send the trimmed token. -/
theorem auth_service_trimming_behavior (u p t : String) :
    (jsTrim u ≠ "" → jsTrim p ≠ "" →
      AuthService.authenticate u p = .forward (jsTrim u, p)) ∧
    (jsTrim t ≠ "" →
      AuthService.refreshToken t = .forward (jsTrim t) ∧
      AuthService.logout t = .forward (jsTrim t) ∧
      AuthService.validateToken t = .forward (jsTrim t)) := by
  constructor
  · intro hu hp
    have hune : u ≠ "" := by
      intro h
      subst h
      exact hu rfl
    have hpne : p ≠ "" := by
      intro h
      subst h
      exact hp rfl
    unfold AuthService.authenticate
    rw [if_neg (by rintro (h | h) <;> [exact hune h; exact hpne h]),
      if_neg (by
        rintro (h | h)
        · exact hu ((string_length_eq_zero _).1 h)
        · exact hp ((string_length_eq_zero _).1 h))]
  · intro htr
    have htne : t ≠ "" := by
      intro h
      subst h
      exact htr rfl
    have hcond : ¬(t = "" ∨ (jsTrim t).length = 0) := by
      rintro (h | h)
      · exact htne h
      · exact htr ((string_length_eq_zero _).1 h)
    exact ⟨by unfold AuthService.refreshToken; rw [if_neg hcond],
      by unfold AuthService.logout; rw [if_neg hcond],
      by unfold AuthService.validateToken; rw [if_neg hcond]⟩

/-- Witness for C5 (amended): a padded username is trimmed while the padded password is forwarded unchanged. -/
theorem auth_service_trimming_behavior_witness :
    AuthService.authenticate " user " " pass " = .forward ("user", " pass ") :=
  (auth_service_trimming_behavior " user " " pass " "x").1 (by decide) (by decide)

/-- Claim C6: `ServiceProxy.forwardRequest` responds 404 naming the service when it is not
in the service map; responds 502 with code SERVICE_UNAVAILABLE when the call fails with
ECONNREFUSED, ENOTFOUND or ETIMEDOUT; relays status and body of every downstream HTTP
response as-is (both via `validateStatus: () => true` and via the `error.response` branch);
and responds 500 with code GATEWAY_ERROR on any other local error. -/
theorem forward_request_error_case_analysis {β γ : Type} (env : String → Option String)
    (name : String) (req : GatewayRequest β) (path : Option String) :
    ((ServiceProxy.initializeServices env).lookup name = none →
      ∀ outcome : AxiosOutcome γ,
        ServiceProxy.forwardRequest env name req path outcome =
          (none, ⟨404, [], .envelope false ("Service \x27" ++ name ++ "\x27 not found") none none⟩)) ∧
    (∀ svc, (ServiceProxy.initializeServices env).lookup name = some svc →
      (∀ (code : Option String) (errResponse : Option (Nat × γ)),
        (code = some "ECONNREFUSED" ∨ code = some "ENOTFOUND" ∨ code = some "ETIMEDOUT") →
          (ServiceProxy.forwardRequest env name req path (.failure code errResponse)).2 =
            ⟨502, [], .envelope false ("Service \x27" ++ name ++ "\x27 is currently unavailable")
              (some "SERVICE_UNAVAILABLE") none⟩) ∧
      (∀ (status : Nat) (data : γ) (respHeaders : List (String × String)),
        (ServiceProxy.forwardRequest env name req path (.response status data respHeaders)).2.status =
            status ∧
        (ServiceProxy.forwardRequest env name req path (.response status data respHeaders)).2.body =
            .relayed data) ∧
      (∀ (code : Option String) (status : Nat) (data : γ),
        code ≠ some "ECONNREFUSED" → code ≠ some "ENOTFOUND" → code ≠ some "ETIMEDOUT" →
          (ServiceProxy.forwardRequest env name req path (.failure code (some (status, data)))).2 =
            ⟨status, [], .relayed data⟩) ∧
      (∀ code : Option String,
        code ≠ some "ECONNREFUSED" → code ≠ some "ENOTFOUND" → code ≠ some "ETIMEDOUT" →
          (ServiceProxy.forwardRequest env name req path
              ((AxiosOutcome.failure code none : AxiosOutcome γ))).2 =
            ⟨500, [], .envelope false "Internal gateway error" (some "GATEWAY_ERROR") none⟩)) := by
  constructor
  · intro hnone outcome
    simp [ServiceProxy.forwardRequest, hnone]
  · intro svc hsvc
    refine ⟨?_, ?_, ?_, ?_⟩
    · intro code errResponse hcode
      simp [ServiceProxy.forwardRequest, hsvc, ServiceProxy.handleProxyError, hcode]
    · intro status data respHeaders
      constructor <;> simp [ServiceProxy.forwardRequest, hsvc]
    · intro code status data h1 h2 h3
      simp [ServiceProxy.forwardRequest, hsvc, ServiceProxy.handleProxyError, h1, h2, h3]
    · intro code h1 h2 h3
      simp [ServiceProxy.forwardRequest, hsvc, ServiceProxy.handleProxyError, h1, h2, h3]

/-- Witness for C6: forwarding to the unconfigured service `nope` yields the 404 response. -/
theorem forward_request_error_case_analysis_witness :
    ServiceProxy.forwardRequest (fun _ => none) "nope"
        (⟨"GET", "/x", (), [], []⟩ : GatewayRequest Unit) none
        (AxiosOutcome.failure (γ := Unit) none none) =
      (none, ⟨404, [], .envelope false "Service \x27nope\x27 not found" none none⟩) :=
  (forward_request_error_case_analysis (fun _ => none) "nope" ⟨"GET", "/x", (), [], []⟩ none).1
    (by decide) (AxiosOutcome.failure none none)

/-- Claim C7: `getProductById` with a non-positive id fails locally with
"Invalid product ID provided" without querying the repository; a positive id with no
matching row yields "Product with ID {id} not found" which the controller maps to 404;
a non-numeric path segment yields 400 from the controller; other service-level errors
(the invalid-id error) are answered with 400. -/
theorem get_product_by_id_error_handling (db : ProductsDb) (seg : String) (id : Int) :
    (id ≤ 0 →
      ProductService.getProductById db id =
        (⟨false, none, some "Invalid product ID provided", none⟩, false)) ∧
    (0 < id → ProductRepository.getProductById db id = none →
      ProductService.getProductById db id =
        (⟨false, none, some ("Product with ID " ++ toString id ++ " not found"), none⟩, true)) ∧
    (jsParseInt seg = none →
      ProductController.getProductById db seg =
        (400, ⟨false, none, some "Invalid product ID format", none⟩)) ∧
    (jsParseInt seg = some id → 0 < id → ProductRepository.getProductById db id = none →
      ProductController.getProductById db seg =
        (404, ⟨false, none, some ("Product with ID " ++ toString id ++ " not found"), none⟩)) ∧
    (jsParseInt seg = some id → id ≤ 0 →
      ProductController.getProductById db seg =
        (400, ⟨false, none, some "Invalid product ID provided", none⟩)) := by
  have hnfmsg : ∀ n : Int, jsIncludes ("Product with ID " ++ toString n ++ " not found") "not found" = true := by
    intro n
    apply jsIncludes_of_suffix
    have h1 : ("not found" : String).toList <:+ (" not found" : String).toList := by decide
    have h2 : (" not found" : String).toList <:+
        (("Product with ID " ++ toString n) ++ " not found").toList := by
      rw [string_toList_append]
      exact List.suffix_append _ _
    exact h1.trans h2
  have hsvcneg : ∀ h : id ≤ 0, ProductService.getProductById db id =
      (⟨false, none, some "Invalid product ID provided", none⟩, false) := by
    intro h
    unfold ProductService.getProductById
    rw [if_pos h]
  have hsvcnf : 0 < id → ProductRepository.getProductById db id = none →
      ProductService.getProductById db id =
        (⟨false, none, some ("Product with ID " ++ toString id ++ " not found"), none⟩, true) := by
    intro hpos hnone
    unfold ProductService.getProductById
    rw [if_neg (by omega), hnone]
  refine ⟨hsvcneg, hsvcnf, ?_, ?_, ?_⟩
  · intro hparse
    unfold ProductController.getProductById
    rw [hparse]
  · intro hparse hpos hnone
    unfold ProductController.getProductById
    rw [hparse]
    simp only [hsvcnf hpos hnone]
    simp [hnfmsg]
  · intro hparse hneg
    unfold ProductController.getProductById
    rw [hparse]
    simp only [hsvcneg hneg]
    simp [jsIncludes]

/-- Witness for C7: id 0 is rejected locally, segment "abc" gets 400, and a missing id 999 gets 404. -/
theorem get_product_by_id_error_handling_witness :
    ProductService.getProductById ⟨[], 1⟩ 0 =
        (⟨false, none, some "Invalid product ID provided", none⟩, false) ∧
    ProductController.getProductById ⟨[], 1⟩ "abc" =
        (400, ⟨false, none, some "Invalid product ID format", none⟩) ∧
    ProductController.getProductById ⟨[], 1⟩ "999" =
        (404, ⟨false, none, some "Product with ID 999 not found", none⟩) := by
  refine ⟨(get_product_by_id_error_handling ⟨[], 1⟩ "x" 0).1 (by decide),
    (get_product_by_id_error_handling ⟨[], 1⟩ "abc" 0).2.2.1 (by decide),
    ?_⟩
  have h := (get_product_by_id_error_handling ⟨[], 1⟩ "999" 999).2.2.2.1
    (by decide) (by decide) (by decide)
  simpa using h

/-- Claim C8: over the embedded database state, creating a product and fetching it by the
id returned by creation yields a row whose fields equal the payload's fields, modulo the
server-assigned id (assuming the next serial id is fresh). -/
theorem create_then_get_product_round_trip (db : ProductsDb) (payload : Product)
    (hfresh : ∀ r ∈ db.rows, r.product_id ≠ db.nextId) :
    ProductRepository.getProductById (ProductRepository.createProduct db payload).2
        ((ProductRepository.createProduct db payload).1.product_id) =
      some { payload with
        product_id := (ProductRepository.createProduct db payload).1.product_id } := by
  unfold ProductRepository.createProduct ProductRepository.getProductById
  simp only [List.filter_append]
  have h1 : db.rows.filter
      (fun r => r.product_id == ({ payload with product_id := db.nextId } : Product).product_id) =
      [] := by
    rw [List.filter_eq_nil_iff]
    intro a ha
    simp only [beq_iff_eq]
    exact hfresh a ha
  rw [h1]
  simp

/-- Witness for C8: the round trip on an empty table with a concrete payload. -/
theorem create_then_get_product_round_trip_witness :
    ProductRepository.getProductById
        (ProductRepository.createProduct ⟨[], 1⟩
          ⟨0, "Chai", some 1, some 1, some "10 boxes", some (37 / 2 : ℚ), some 39, some 0,
            some 10, 0⟩).2
        ((ProductRepository.createProduct ⟨[], 1⟩
          ⟨0, "Chai", some 1, some 1, some "10 boxes", some (37 / 2 : ℚ), some 39, some 0,
            some 10, 0⟩).1.product_id) =
      some ⟨1, "Chai", some 1, some 1, some "10 boxes", some (37 / 2 : ℚ), some 39, some 0,
            some 10, 0⟩ := by
  have h := create_then_get_product_round_trip ⟨[], 1⟩
    ⟨0, "Chai", some 1, some 1, some "10 boxes", some (37 / 2 : ℚ), some 39, some 0, some 10, 0⟩
    (by simp)
  simpa using h

/-- Claim C9: the headers sent downstream are the inbound headers with exactly `host`,
`connection`, `content-length` and `transfer-encoding` removed and every other header
unchanged; the relayed response headers are the downstream headers with exactly
`transfer-encoding` and `connection` removed and every other header unchanged. -/
theorem forwarded_header_sanitization {β γ : Type} (env : String → Option String)
    (name : String) (req : GatewayRequest β) (path : Option String) (k : String) :
    ((ServiceProxy.sanitizeHeaders req.headers).lookup k =
      if k = "host" ∨ k = "connection" ∨ k = "content-length" ∨ k = "transfer-encoding"
      then none else req.headers.lookup k) ∧
    (∀ respHeaders : List (String × String),
      (ServiceProxy.sanitizeResponseHeaders respHeaders).lookup k =
        if k = "transfer-encoding" ∨ k = "connection" then none else respHeaders.lookup k) ∧
    (∀ svc, (ServiceProxy.initializeServices env).lookup name = some svc →
      ∀ outcome : AxiosOutcome γ,
        Option.map (fun fr => fr.headers) (ServiceProxy.forwardRequest env name req path outcome).1 =
          some (ServiceProxy.sanitizeHeaders req.headers)) ∧
    (∀ svc, (ServiceProxy.initializeServices env).lookup name = some svc →
      ∀ (status : Nat) (data : γ) (respHeaders : List (String × String)),
        (ServiceProxy.forwardRequest env name req path (.response status data respHeaders)).2.headers =
          ServiceProxy.sanitizeResponseHeaders respHeaders) := by
  refine ⟨?_, ?_, ?_, ?_⟩
  · have hlf := lookup_filter_key req.headers
      (fun s => !(s == "host" || s == "connection" || s == "content-length" || s == "transfer-encoding")) k
    rw [ServiceProxy.sanitizeHeaders]
    simp only at hlf
    rw [hlf]
    by_cases h : k = "host" ∨ k = "connection" ∨ k = "content-length" ∨ k = "transfer-encoding"
    · rw [if_pos h]
      rcases h with h | h | h | h <;> subst h <;> rfl
    · rw [if_neg h]
      push_neg at h
      obtain ⟨h1, h2, h3, h4⟩ := h
      rw [if_pos]
      simp [h1, h2, h3, h4]
  · intro respHeaders
    have hlf := lookup_filter_key respHeaders
      (fun s => !(s == "transfer-encoding" || s == "connection")) k
    rw [ServiceProxy.sanitizeResponseHeaders]
    simp only at hlf
    rw [hlf]
    by_cases h : k = "transfer-encoding" ∨ k = "connection"
    · rw [if_pos h]
      rcases h with h | h <;> subst h <;> rfl
    · rw [if_neg h]
      push_neg at h
      obtain ⟨h1, h2⟩ := h
      rw [if_pos]
      simp [h1, h2]
  · intro svc hsvc outcome
    cases outcome <;> simp [ServiceProxy.forwardRequest, hsvc]
  · intro svc hsvc status data respHeaders
    simp [ServiceProxy.forwardRequest, hsvc]

/-- Witness for C9: a concrete forwarded request drops `host` and keeps `accept`. -/
theorem forwarded_header_sanitization_witness :
    Option.map (fun fr => fr.headers)
        (ServiceProxy.forwardRequest (fun _ => none) "products"
          (⟨"GET", "/p", (), [], [("host", "gw"), ("accept", "json")]⟩ : GatewayRequest Unit) none
          (AxiosOutcome.response 200 () [("connection", "keep-alive"), ("etag", "e")])).1 =
      some [("accept", "json")] := by
  have h := (forwarded_header_sanitization (β := Unit) (γ := Unit) (fun _ => none) "products"
      ⟨"GET", "/p", (), [], [("host", "gw"), ("accept", "json")]⟩ none "k").2.2.1
    ⟨"products", "http://localhost:3002", some 5000, some 3⟩ rfl
    (AxiosOutcome.response 200 () [("connection", "keep-alive"), ("etag", "e")])
  rw [h]
  rfl

/-- Claim C10: the middleware never checks the Authorization scheme: for a header
`<scheme> <token>` the second word is verified as a JWT whatever the scheme word is,
while a single-word header with nothing after a space is rejected with 401
"No token provided". -/
theorem middleware_ignores_authorization_scheme (verify : String → VerifyOutcome)
    (scheme tok w : String) :
    (¬ ' ' ∈ scheme.toList → ¬ ' ' ∈ tok.toList → tok ≠ "" →
      AuthenticationMiddleware.extractToken (scheme ++ " " ++ tok) = tok ∧
      (∀ claims, verify tok = .ok claims →
        AuthenticationMiddleware.authenticate (some (scheme ++ " " ++ tok)) verify =
          .proceed claims) ∧
      (∀ m, verify tok = .err m →
        AuthenticationMiddleware.authenticate (some (scheme ++ " " ++ tok)) verify =
          .respond 401 (AuthenticationMiddleware.verifyErrorMessage m)
            (AuthenticationMiddleware.verifyErrorHint m))) ∧
    (¬ ' ' ∈ w.toList → w ≠ "" →
      AuthenticationMiddleware.authenticate (some w) verify =
        .respond 401 "No token provided" "Authorization header format: Bearer <token>") := by
  constructor
  · intro hs ht htok
    have hext := extractToken_scheme_space_token scheme tok hs ht
    have hne : scheme ++ " " ++ tok ≠ "" := by
      intro heq
      have := congrArg String.toList heq
      rw [string_toList_append, string_toList_append] at this
      simp at this
    refine ⟨hext, ?_, ?_⟩
    · intro claims hok
      simp [AuthenticationMiddleware.authenticate, hne, hext, htok, hok]
    · intro m herr
      simp [AuthenticationMiddleware.authenticate, hne, hext, htok, herr]
  · intro hw hwne
    have hext : AuthenticationMiddleware.extractToken w = "" := by
      unfold AuthenticationMiddleware.extractToken
      rw [splitChars_not_mem _ _ hw]
      rfl
    simp [AuthenticationMiddleware.authenticate, hwne, hext]

/-- Witness for C10: "Basic xyz" has "xyz" verified (and accepted), while "Bearer" alone gets 401 "No token provided". -/
theorem middleware_ignores_authorization_scheme_witness :
    AuthenticationMiddleware.authenticate (some ("Basic" ++ " " ++ "xyz"))
        (fun _ => .ok [("sub", "u1")]) = .proceed [("sub", "u1")] ∧
    AuthenticationMiddleware.authenticate (some "Bearer") (fun _ => .ok [("sub", "u1")]) =
      .respond 401 "No token provided" "Authorization header format: Bearer <token>" :=
  ⟨(((middleware_ignores_authorization_scheme (fun _ => .ok [("sub", "u1")]) "Basic" "xyz"
        "Bearer").1 (by decide) (by decide) (by decide)).2.1 [("sub", "u1")] rfl),
    ((middleware_ignores_authorization_scheme (fun _ => .ok [("sub", "u1")]) "Basic" "xyz"
        "Bearer").2 (by decide) (by decide))⟩

